import Mathlib

/-!
Shallow embedding of the trading core in src/meanRev2.py (class AutoTrader of the
Ready Trader Go pairs strategy).  The event handlers of the Python class become
pure functions from an explicit state to a new state; the outbound calls
send_insert_order / send_hedge_order become an emitted list of actions.  Python
integers are modelled as Int (prices, volumes, position) and order ids as Nat;
the itertools.count(1) allocator is the field order_ids holding the next id to
hand out.  The Python sets self.bids / self.asks are Finset Nat (set.discard is
Finset.erase).  Indexing an empty ladder with [0] raises IndexError in Python,
so get_max_possible_trade returns an Option, none standing for that exception.
-/

set_option linter.unusedVariables false

namespace MeanRev2

/-- Side of an order, as in ready_trader_go (Side.BID buys, Side.ASK sells). -/
inductive Side where
  | BID : Side
  | ASK : Side
deriving DecidableEq

/-- Order lifespan, as in ready_trader_go. -/
inductive Lifespan where
  | FILL_OR_KILL : Lifespan
  | GOOD_FOR_DAY : Lifespan
deriving DecidableEq

/-- Lifespan.F is the alias the source uses for the fill-or-kill lifespan. -/
def Lifespan.F : Lifespan := Lifespan.FILL_OR_KILL

/-- The two instruments of the pair. -/
inductive Instrument where
  | FUTURE : Instrument
  | ETF : Instrument
deriving DecidableEq

/-- A price level: (price, volume), both Python ints. -/
abbrev PriceLevel := Int × Int

/-- A ladder: the stored sequence of price levels for one side of one book. -/
abbrev Ladder := List PriceLevel

/-- Outbound calls of the handlers: send_insert_order and send_hedge_order. -/
inductive Action where
  | send_insert_order (id : Nat) (side : Side) (price : Int) (volume : Int)
      (lifespan : Lifespan) : Action
  | send_hedge_order (id : Nat) (side : Side) (price : Int) (volume : Int) : Action
deriving DecidableEq

/-- The mutable state of the AutoTrader instance (fields set in __init__). -/
structure AutoTrader where
  order_ids : Nat
  bids : Finset Nat
  asks : Finset Nat
  ask_id : Nat
  ask_price : Int
  bid_id : Nat
  bid_price : Int
  position : Int
  lastEtfBids : Ladder
  lastEtfAsks : Ladder
  lastFutureBids : Ladder
  lastFutureAsks : Ladder
deriving DecidableEq

/-- The state built by AutoTrader.__init__: counter at 1, empty working sets,
zero ids, prices and position, and every ladder the pair ((0,0),(0,0)). -/
def AutoTrader.init : AutoTrader where
  order_ids := 1
  bids := ∅
  asks := ∅
  ask_id := 0
  ask_price := 0
  bid_id := 0
  bid_price := 0
  position := 0
  lastEtfBids := [(0, 0), (0, 0)]
  lastEtfAsks := [(0, 0), (0, 0)]
  lastFutureBids := [(0, 0), (0, 0)]
  lastFutureAsks := [(0, 0), (0, 0)]

/-- The double loop of the first branch of get_max_possible_trade: ETF asks
outer, future bids inner; on each qualifying pair (ask price strictly below bid
price) the running volume grows by min of the two volumes and both reported
prices are overwritten (etf price from the ask, future price from the bid).
Accumulator is (max_volume, etf_price, fut_price), starting at (0, 0, 0). -/
def scanBuyEtf (etfAsks futureBids : Ladder) : Int × Int × Int :=
  etfAsks.foldl
    (fun acc ask =>
      futureBids.foldl
        (fun acc2 bid =>
          if ask.1 < bid.1 then (acc2.1 + min ask.2 bid.2, ask.1, bid.1) else acc2)
        acc)
    (0, 0, 0)

/-- The double loop of the second branch: future asks outer, ETF bids inner;
here the etf price is taken from the bid and the future price from the ask. -/
def scanSellEtf (futureAsks etfBids : Ladder) : Int × Int × Int :=
  futureAsks.foldl
    (fun acc ask =>
      etfBids.foldl
        (fun acc2 bid =>
          if ask.1 < bid.1 then (acc2.1 + min ask.2 bid.2, bid.1, ask.1) else acc2)
        acc)
    (0, 0, 0)

/-- get_max_possible_trade: gate on the best (index 0) levels, then scan the
full cross product of the two relevant ladders.  Returns
(etf_price, max_volume, side, fut_price); none models the IndexError Python
raises when a ladder whose head the gate needs is empty. -/
def get_max_possible_trade (s : AutoTrader) : Option (Int × Int × Side × Int) :=
  match s.lastEtfAsks.head?, s.lastFutureBids.head? with
  | some bestEtfAsk, some bestFutureBid =>
    if bestEtfAsk.1 < bestFutureBid.1 then
      let r := scanBuyEtf s.lastEtfAsks s.lastFutureBids
      some (r.2.1, r.1, Side.BID, r.2.2)
    else
      match s.lastEtfBids.head?, s.lastFutureAsks.head? with
      | some bestEtfBid, some bestFutureAsk =>
        if bestEtfBid.1 > bestFutureAsk.1 then
          let r := scanSellEtf s.lastFutureAsks s.lastEtfBids
          some (r.2.1, r.1, Side.ASK, r.2.2)
        else
          some (0, 0, Side.BID, 0)
      | _, _ => none
  | _, _ => none

/-- The ladder replacement at the top of on_order_book_update_message:
tuple(zip(prices, volumes)) stored wholesale for the updated instrument. -/
def updateBooks (s : AutoTrader) (instrument : Instrument)
    (ask_prices ask_volumes bid_prices bid_volumes : List Int) : AutoTrader :=
  if instrument = Instrument.ETF then
    { s with
      lastEtfBids := bid_prices.zip bid_volumes
      lastEtfAsks := ask_prices.zip ask_volumes }
  else
    { s with
      lastFutureBids := bid_prices.zip bid_volumes
      lastFutureAsks := ask_prices.zip ask_volumes }

/-- on_order_book_update_message: replace the updated instrument's ladders,
run the scanner, and if etf_price != 0 and volume != 0 allocate a fresh id,
record it in the side's resting-id and price slots, and emit one insert order
plus one hedge order; none models the IndexError path of the scanner. -/
def on_order_book_update_message (s : AutoTrader) (instrument : Instrument)
    (sequence_number : Nat)
    (ask_prices ask_volumes bid_prices bid_volumes : List Int) :
    Option (AutoTrader × List Action) :=
  let s1 := updateBooks s instrument ask_prices ask_volumes bid_prices bid_volumes
  match get_max_possible_trade s1 with
  | none => none
  | some (etf_price, volume, side, fut_price) =>
    if etf_price ≠ 0 ∧ volume ≠ 0 then
      if side = Side.ASK then
        some ({ s1 with
                ask_price := etf_price
                ask_id := s1.order_ids
                order_ids := s1.order_ids + 2 },
              [Action.send_insert_order s1.order_ids side etf_price volume Lifespan.F,
               Action.send_hedge_order (s1.order_ids + 1) Side.BID fut_price volume])
      else
        some ({ s1 with
                bid_price := etf_price
                bid_id := s1.order_ids
                order_ids := s1.order_ids + 2 },
              [Action.send_insert_order s1.order_ids side etf_price volume Lifespan.F,
               Action.send_hedge_order (s1.order_ids + 1) Side.ASK fut_price volume])
    else
      some (s1, [])

/-- on_order_filled_message: position rises by volume for an id in bids, falls
by volume for an id in asks, and is untouched for an unknown id. -/
def on_order_filled_message (s : AutoTrader) (client_order_id : Nat)
    (price : Int) (volume : Int) : AutoTrader :=
  if client_order_id ∈ s.bids then
    { s with position := s.position + volume }
  else if client_order_id ∈ s.asks then
    { s with position := s.position - volume }
  else
    s

/-- on_order_status_message: on zero remaining volume, clear the matching
resting-id slot (bid slot checked first, elif ask slot) and discard the id
from both working sets. -/
def on_order_status_message (s : AutoTrader) (client_order_id : Nat)
    (fill_volume remaining_volume fees : Int) : AutoTrader :=
  if remaining_volume = 0 then
    let s1 :=
      if client_order_id = s.bid_id then { s with bid_id := 0 }
      else if client_order_id = s.ask_id then { s with ask_id := 0 }
      else s
    { s1 with
      bids := s1.bids.erase client_order_id
      asks := s1.asks.erase client_order_id }
  else
    s

/-- on_error_message: for a nonzero id known to either working set, behave as
a status message with zero remaining volume; otherwise only log. -/
def on_error_message (s : AutoTrader) (client_order_id : Nat) : AutoTrader :=
  if client_order_id ≠ 0 ∧ (client_order_id ∈ s.bids ∨ client_order_id ∈ s.asks) then
    on_order_status_message s client_order_id 0 0 0
  else
    s

/-- on_hedge_filled_message only logs: the state is unchanged. -/
def on_hedge_filled_message (s : AutoTrader) (client_order_id : Nat)
    (price : Int) (volume : Int) : AutoTrader :=
  s

/-- on_trade_ticks_message only logs: the state is unchanged. -/
def on_trade_ticks_message (s : AutoTrader) (instrument : Instrument)
    (sequence_number : Nat)
    (ask_prices ask_volumes bid_prices bid_volumes : List Int) : AutoTrader :=
  s

/-- States reachable from __init__ by any sequence of handler events.  The
book constructor covers the normal return of the book handler; bookCrash
covers the IndexError path, in which the ladder replacement has already been
applied when the exception escapes the handler. -/
inductive Reachable : AutoTrader → Prop where
  | init : Reachable AutoTrader.init
  | book (s s2 : AutoTrader) (i : Instrument) (n : Nat) (ap av bp bv : List Int)
      (acts : List Action) : Reachable s →
      on_order_book_update_message s i n ap av bp bv = some (s2, acts) →
      Reachable s2
  | bookCrash (s : AutoTrader) (i : Instrument) (n : Nat) (ap av bp bv : List Int) :
      Reachable s →
      on_order_book_update_message s i n ap av bp bv = none →
      Reachable (updateBooks s i ap av bp bv)
  | fill (s : AutoTrader) (id : Nat) (p v : Int) : Reachable s →
      Reachable (on_order_filled_message s id p v)
  | status (s : AutoTrader) (id : Nat) (fv rv fees : Int) : Reachable s →
      Reachable (on_order_status_message s id fv rv fees)
  | error (s : AutoTrader) (id : Nat) : Reachable s →
      Reachable (on_error_message s id)
  | hedge (s : AutoTrader) (id : Nat) (p v : Int) : Reachable s →
      Reachable (on_hedge_filled_message s id p v)
  | ticks (s : AutoTrader) (i : Instrument) (n : Nat) (ap av bp bv : List Int) :
      Reachable s →
      Reachable (on_trade_ticks_message s i n ap av bp bv)

/-! Helper lemmas: updateBooks only touches the four ladder fields. -/

@[simp] lemma updateBooks_order_ids (s : AutoTrader) (i : Instrument)
    (ap av bp bv : List Int) : (updateBooks s i ap av bp bv).order_ids = s.order_ids := by
  unfold updateBooks; split <;> rfl

@[simp] lemma updateBooks_bids (s : AutoTrader) (i : Instrument)
    (ap av bp bv : List Int) : (updateBooks s i ap av bp bv).bids = s.bids := by
  unfold updateBooks; split <;> rfl

@[simp] lemma updateBooks_asks (s : AutoTrader) (i : Instrument)
    (ap av bp bv : List Int) : (updateBooks s i ap av bp bv).asks = s.asks := by
  unfold updateBooks; split <;> rfl

@[simp] lemma updateBooks_bid_id (s : AutoTrader) (i : Instrument)
    (ap av bp bv : List Int) : (updateBooks s i ap av bp bv).bid_id = s.bid_id := by
  unfold updateBooks; split <;> rfl

@[simp] lemma updateBooks_ask_id (s : AutoTrader) (i : Instrument)
    (ap av bp bv : List Int) : (updateBooks s i ap av bp bv).ask_id = s.ask_id := by
  unfold updateBooks; split <;> rfl

@[simp] lemma updateBooks_bid_price (s : AutoTrader) (i : Instrument)
    (ap av bp bv : List Int) : (updateBooks s i ap av bp bv).bid_price = s.bid_price := by
  unfold updateBooks; split <;> rfl

@[simp] lemma updateBooks_ask_price (s : AutoTrader) (i : Instrument)
    (ap av bp bv : List Int) : (updateBooks s i ap av bp bv).ask_price = s.ask_price := by
  unfold updateBooks; split <;> rfl

@[simp] lemma updateBooks_position (s : AutoTrader) (i : Instrument)
    (ap av bp bv : List Int) : (updateBooks s i ap av bp bv).position = s.position := by
  unfold updateBooks; split <;> rfl

/-- Helper: whenever the book handler returns normally, the result state agrees
with the wholesale ladder replacement on all four ladders, keeps bids, asks and
position, keeps or advances the id counter, and any resting-id slot it writes
holds the freshly allocated id (the counter value before the update). -/
lemma on_order_book_update_some (s : AutoTrader) (i : Instrument) (n : Nat)
    (ap av bp bv : List Int) (r : AutoTrader × List Action)
    (h : on_order_book_update_message s i n ap av bp bv = some r) :
    r.1.position = s.position ∧ r.1.bids = s.bids ∧ r.1.asks = s.asks ∧
    s.order_ids ≤ r.1.order_ids ∧
    (r.1.bid_id = s.bid_id ∨ r.1.bid_id = s.order_ids) ∧
    (r.1.ask_id = s.ask_id ∨ r.1.ask_id = s.order_ids) ∧
    r.1.lastEtfAsks = (updateBooks s i ap av bp bv).lastEtfAsks ∧
    r.1.lastEtfBids = (updateBooks s i ap av bp bv).lastEtfBids ∧
    r.1.lastFutureAsks = (updateBooks s i ap av bp bv).lastFutureAsks ∧
    r.1.lastFutureBids = (updateBooks s i ap av bp bv).lastFutureBids := by
  simp only [on_order_book_update_message] at h
  split at h
  · exact Option.noConfusion h
  · split at h
    · split at h
      · obtain rfl := (Option.some.injEq _ _).mp h
        simp
      · obtain rfl := (Option.some.injEq _ _).mp h
        simp
    · obtain rfl := (Option.some.injEq _ _).mp h
      simp

/-- A run from __init__: an ETF book update with asks [(100,5)] and bids
[(90,5)], then a future book update with asks [(210,1)] and bids [(200,3)].
The second update makes the scanner report (100, 3, BID, 200) and so triggers
the BID branch of the controller. -/
def triggeredRun : Option (AutoTrader × List Action) :=
  (on_order_book_update_message AutoTrader.init Instrument.ETF 1 [100] [5] [90] [5]).bind
    (fun r => on_order_book_update_message r.1 Instrument.FUTURE 2 [210] [1] [200] [3])

/-- C1: evaluation of the code at the failing input.  The future book update of
triggeredRun triggers the BID branch: order id 1 is allocated into the bid_id
slot and exactly one insert order plus one hedge order are emitted — yet the
bids working set stays empty, so the subsequent fill for id 1 with volume 3
leaves the position at 0, where the claim requires position to rise by 3. -/
theorem bid_fill_ignored_position_stays_zero :
    triggeredRun.map (fun r =>
      (r.1.bid_id, r.1.bids, (on_order_filled_message r.1 r.1.bid_id 100 3).position, r.2))
    = some (1, (∅ : Finset Nat), 0,
        [Action.send_insert_order 1 Side.BID 100 3 Lifespan.F,
         Action.send_hedge_order 2 Side.ASK 200 3]) := by
  decide

/-- The stored state of claim C2: ETF asks [(100,5)] and future bids [(200,3)],
every other level the (0,0) sentinel, all ladders five entries long. -/
def sentinelState : AutoTrader :=
  { AutoTrader.init with
    lastEtfAsks := [(100, 5), (0, 0), (0, 0), (0, 0), (0, 0)]
    lastFutureBids := [(200, 3), (0, 0), (0, 0), (0, 0), (0, 0)]
    lastEtfBids := [(0, 0), (0, 0), (0, 0), (0, 0), (0, 0)]
    lastFutureAsks := [(0, 0), (0, 0), (0, 0), (0, 0), (0, 0)] }

/-- C2 counterexample: on the claimed ladders the scanner does not return
price 100 with volume 3, side BID and hedge price 200. -/
theorem sentinel_state_not_price_100 :
    get_max_possible_trade sentinelState ≠ some (100, 3, Side.BID, 200) := by
  decide

/-- C2 amended: on those ladders the scanner returns price 0, volume 3, side
BID, hedge price 200 — each sentinel (0,0) ask level qualifies against the
real bid (0 < 200), adds min(0,3) = 0 volume, and overwrites the reported ETF
price with its price 0, so sentinel levels do affect the reported prices. -/
theorem sentinel_scan_returns_price_zero :
    get_max_possible_trade sentinelState = some (0, 3, Side.BID, 200) := by
  decide

/-- The stored state of claim C6: ETF asks [(100,5),(101,5)] and future bids
[(200,3),(150,4)] exactly (no sentinel padding is stored by the code). -/
def accumState : AutoTrader :=
  { AutoTrader.init with
    lastEtfAsks := [(100, 5), (101, 5)]
    lastFutureBids := [(200, 3), (150, 4)] }

/-- C6: on ETF asks [(100,5),(101,5)] and future bids [(200,3),(150,4)] all
four cross-product pairs qualify, the accumulated volume is
min(5,3)+min(5,4)+min(5,3)+min(5,4) = 14, and the reported prices are those of
the last qualifying pair in iteration order: ETF price 101, hedge price 150. -/
theorem accumulates_cross_product_reports_last_pair :
    get_max_possible_trade accumState = some (101, 14, Side.BID, 150) := by
  decide

/-- C9: a fill for an id in neither working set is a complete no-op on the
state (in particular the position is unchanged), and the handler is total, so
no error is raised. -/
theorem fill_unknown_id_noop (s : AutoTrader) (id : Nat) (p v : Int)
    (hb : id ∉ s.bids) (ha : id ∉ s.asks) :
    on_order_filled_message s id p v = s := by
  simp [on_order_filled_message, hb, ha]

/-- C9 witness: onFill(999, 10) on the fresh ledger leaves it unchanged. -/
theorem fill_unknown_id_noop_witness :
    on_order_filled_message AutoTrader.init 999 0 10 = AutoTrader.init :=
  fill_unknown_id_noop AutoTrader.init 999 0 10 (by decide) (by decide)

/-- C5: whenever the best ETF ask price is at least the best future bid price
and the best ETF bid price is at most the best future ask price, the scanner
reports no opportunity: price 0, volume 0 and hedge price 0. -/
theorem no_cross_returns_zero (s : AutoTrader) (ea fb eb fa : PriceLevel)
    (h1 : s.lastEtfAsks.head? = some ea) (h2 : s.lastFutureBids.head? = some fb)
    (h3 : s.lastEtfBids.head? = some eb) (h4 : s.lastFutureAsks.head? = some fa)
    (h5 : fb.1 ≤ ea.1) (h6 : eb.1 ≤ fa.1) :
    get_max_possible_trade s = some (0, 0, Side.BID, 0) := by
  unfold get_max_possible_trade
  simp only [h1, h2, h3, h4]
  rw [if_neg (not_lt.mpr h5), if_neg (not_lt.mpr h6)]

/-- C5 witness: on the initial ladders (all sentinel levels) the best prices
tie, and the scanner reports no opportunity. -/
theorem no_cross_returns_zero_witness :
    get_max_possible_trade AutoTrader.init = some (0, 0, Side.BID, 0) :=
  no_cross_returns_zero AutoTrader.init (0, 0) (0, 0) (0, 0) (0, 0)
    rfl rfl rfl rfl (by decide) (by decide)

/-- A ledger state in which both resting-id slots hold the same nonzero id 5:
here the elif chain of the status handler clears only the bid slot on the
first call and the ask slot on the second, so two calls differ from one. -/
def bothSlotsFive : AutoTrader :=
  { AutoTrader.init with bid_id := 5, ask_id := 5 }

/-- C7 counterexample: with bid_id = ask_id = 5, calling the status handler
for id 5 with remaining volume 0 twice does not equal calling it once — the
first call clears only bid_id (the elif skips ask_id), the second call then
clears ask_id as well. -/
theorem status_twice_differs_on_shared_slots :
    on_order_status_message (on_order_status_message bothSlotsFive 5 0 0 0) 5 0 0 0 ≠
      on_order_status_message bothSlotsFive 5 0 0 0 := by
  decide

/-- C7 amended: the second call with remaining volume 0 is a no-op on the
result of the first, for every state in which the reported id is not
simultaneously a nonzero value of both resting slots (position and the two
working sets agree even without that proviso; only the ask slot can differ). -/
theorem status_zero_remaining_idempotent (s : AutoTrader) (id : Nat)
    (h : ¬(id ≠ 0 ∧ id = s.bid_id ∧ id = s.ask_id)) :
    on_order_status_message (on_order_status_message s id 0 0 0) id 0 0 0 =
      on_order_status_message s id 0 0 0 := by
  obtain ⟨oi, b, a, ai, apr, bi, bpr, pos, leb, lea, lfb, lfa⟩ := s
  by_cases hb : id = bi <;> by_cases ha : id = ai <;> by_cases h0 : id = 0 <;>
    simp_all [on_order_status_message, Finset.erase_idem]

/-- C7 witness: for id 7 on the fresh ledger the double call collapses. -/
theorem status_zero_remaining_idempotent_witness :
    on_order_status_message (on_order_status_message AutoTrader.init 7 0 0 0) 7 0 0 0 =
      on_order_status_message AutoTrader.init 7 0 0 0 :=
  status_zero_remaining_idempotent AutoTrader.init 7 (by decide)

/-! Helper lemmas: which fields each ledger handler can touch. -/

@[simp] lemma on_order_filled_message_bids (s : AutoTrader) (id : Nat) (p v : Int) :
    (on_order_filled_message s id p v).bids = s.bids := by
  unfold on_order_filled_message; split_ifs <;> rfl

@[simp] lemma on_order_filled_message_asks (s : AutoTrader) (id : Nat) (p v : Int) :
    (on_order_filled_message s id p v).asks = s.asks := by
  unfold on_order_filled_message; split_ifs <;> rfl

@[simp] lemma on_order_filled_message_bid_id (s : AutoTrader) (id : Nat) (p v : Int) :
    (on_order_filled_message s id p v).bid_id = s.bid_id := by
  unfold on_order_filled_message; split_ifs <;> rfl

@[simp] lemma on_order_filled_message_ask_id (s : AutoTrader) (id : Nat) (p v : Int) :
    (on_order_filled_message s id p v).ask_id = s.ask_id := by
  unfold on_order_filled_message; split_ifs <;> rfl

@[simp] lemma on_order_filled_message_order_ids (s : AutoTrader) (id : Nat) (p v : Int) :
    (on_order_filled_message s id p v).order_ids = s.order_ids := by
  unfold on_order_filled_message; split_ifs <;> rfl

@[simp] lemma on_order_status_message_position (s : AutoTrader) (id : Nat)
    (fv rv fees : Int) : (on_order_status_message s id fv rv fees).position = s.position := by
  unfold on_order_status_message; split_ifs <;> rfl

@[simp] lemma on_order_status_message_order_ids (s : AutoTrader) (id : Nat)
    (fv rv fees : Int) : (on_order_status_message s id fv rv fees).order_ids = s.order_ids := by
  unfold on_order_status_message; split_ifs <;> rfl

@[simp] lemma on_order_status_message_bids (s : AutoTrader) (id : Nat)
    (fv rv fees : Int) :
    (on_order_status_message s id fv rv fees).bids =
      if rv = 0 then s.bids.erase id else s.bids := by
  unfold on_order_status_message; split_ifs <;> rfl

@[simp] lemma on_order_status_message_asks (s : AutoTrader) (id : Nat)
    (fv rv fees : Int) :
    (on_order_status_message s id fv rv fees).asks =
      if rv = 0 then s.asks.erase id else s.asks := by
  unfold on_order_status_message; split_ifs <;> rfl

@[simp] lemma on_error_message_position (s : AutoTrader) (id : Nat) :
    (on_error_message s id).position = s.position := by
  unfold on_error_message; split_ifs <;> simp

@[simp] lemma on_error_message_order_ids (s : AutoTrader) (id : Nat) :
    (on_error_message s id).order_ids = s.order_ids := by
  unfold on_error_message; split_ifs <;> simp

/-- Helper: the id counter never decreases along any reachable step, so in
every reachable state it still holds at least its initial value 1; hence a
freshly allocated order id is never 0. -/
lemma reachable_one_le_order_ids (s : AutoTrader) (h : Reachable s) :
    1 ≤ s.order_ids := by
  induction h with
  | init => exact le_refl 1
  | book s s2 i n ap av bp bv acts hr hstep ih =>
      obtain ⟨-, -, -, hle, -⟩ := on_order_book_update_some s i n ap av bp bv (s2, acts) hstep
      exact le_trans ih hle
  | bookCrash s i n ap av bp bv hr hnone ih => simpa using ih
  | fill s id p v hr ih => simpa using ih
  | status s id fv rv fees hr ih => simpa using ih
  | error s id hr ih => simpa using ih
  | hedge s id p v hr ih => exact ih
  | ticks s i n ap av bp bv hr ih => exact ih

/-- C10: starting from __init__, no handler ever inserts an id into the bids
or asks working sets (the controller allocates ids but never records them), so
in every reachable state both working sets are empty and, since the fill
handler only moves the position for ids found in a working set, the position
is 0 in every reachable state. -/
theorem reachable_working_sets_empty_position_zero (s : AutoTrader)
    (h : Reachable s) : s.bids = ∅ ∧ s.asks = ∅ ∧ s.position = 0 := by
  induction h with
  | init => exact ⟨rfl, rfl, rfl⟩
  | book s s2 i n ap av bp bv acts hr hstep ih =>
      obtain ⟨hp, hb, ha, -⟩ := on_order_book_update_some s i n ap av bp bv (s2, acts) hstep
      exact ⟨by rw [hb, ih.1], by rw [ha, ih.2.1], by rw [hp, ih.2.2]⟩
  | bookCrash s i n ap av bp bv hr hnone ih => simpa using ih
  | fill s id p v hr ih =>
      obtain ⟨h1, h2, h3⟩ := ih
      simp [on_order_filled_message, h1, h2, h3]
  | status s id fv rv fees hr ih =>
      obtain ⟨h1, h2, h3⟩ := ih
      simp [h1, h2, h3, Finset.erase_empty]
  | error s id hr ih =>
      obtain ⟨h1, h2, h3⟩ := ih
      simp [on_error_message, h1, h2, h3]
  | hedge s id p v hr ih => exact ih
  | ticks s i n ap av bp bv hr ih => exact ih

/-- C10 witness: the invariant instantiated at the initial state itself. -/
theorem reachable_working_sets_empty_position_zero_witness :
    AutoTrader.init.bids = ∅ ∧ AutoTrader.init.asks = ∅ ∧
      AutoTrader.init.position = 0 :=
  reachable_working_sets_empty_position_zero AutoTrader.init Reachable.init

/-- C8: in every reachable state, only the fill handler moves the position —
the book-update, status, error, hedge-fill and trade-ticks handlers leave it
unchanged (the last two leave the whole state unchanged) — and the resting
bid/ask id slots are never cleared by the book-update handler (a slot it
writes receives the fresh id, which is nonzero in a reachable state) nor by
the fill handler, which preserves both slots exactly. -/
theorem position_and_slot_frame (s : AutoTrader) (hs : Reachable s)
    (i : Instrument) (n : Nat) (ap av bp bv : List Int) (id : Nat)
    (p v fv rv fees : Int) :
    (∀ r, on_order_book_update_message s i n ap av bp bv = some r →
        r.1.position = s.position ∧
        (s.bid_id ≠ 0 → r.1.bid_id ≠ 0) ∧ (s.ask_id ≠ 0 → r.1.ask_id ≠ 0)) ∧
    (on_order_status_message s id fv rv fees).position = s.position ∧
    (on_error_message s id).position = s.position ∧
    on_hedge_filled_message s id p v = s ∧
    on_trade_ticks_message s i n ap av bp bv = s ∧
    (on_order_filled_message s id p v).bid_id = s.bid_id ∧
    (on_order_filled_message s id p v).ask_id = s.ask_id := by
  refine ⟨?_, on_order_status_message_position s id fv rv fees,
    on_error_message_position s id, rfl, rfl,
    on_order_filled_message_bid_id s id p v,
    on_order_filled_message_ask_id s id p v⟩
  intro r hr
  obtain ⟨hp, -, -, -, hbid, hask, -⟩ :=
    on_order_book_update_some s i n ap av bp bv r hr
  have hone : 1 ≤ s.order_ids := reachable_one_le_order_ids s hs
  refine ⟨hp, ?_, ?_⟩
  · intro hb0
    rcases hbid with h | h <;> rw [h]
    · exact hb0
    · omega
  · intro ha0
    rcases hask with h | h <;> rw [h]
    · exact ha0
    · omega

/-- C8 witness: the frame property instantiated at the initial state; the
status-handler conjunct applied there. -/
theorem position_and_slot_frame_witness :
    (on_order_status_message AutoTrader.init 1 0 0 0).position =
      AutoTrader.init.position :=
  (position_and_slot_frame AutoTrader.init Reachable.init Instrument.ETF 0
    [] [] [] [] 1 0 0 0 0 0).2.1

/-! Helper lemmas: what updateBooks stores for each ladder. -/

@[simp] lemma updateBooks_lastEtfAsks (s : AutoTrader) (i : Instrument)
    (ap av bp bv : List Int) :
    (updateBooks s i ap av bp bv).lastEtfAsks =
      if i = Instrument.ETF then ap.zip av else s.lastEtfAsks := by
  unfold updateBooks; split_ifs <;> rfl

@[simp] lemma updateBooks_lastEtfBids (s : AutoTrader) (i : Instrument)
    (ap av bp bv : List Int) :
    (updateBooks s i ap av bp bv).lastEtfBids =
      if i = Instrument.ETF then bp.zip bv else s.lastEtfBids := by
  unfold updateBooks; split_ifs <;> rfl

@[simp] lemma updateBooks_lastFutureAsks (s : AutoTrader) (i : Instrument)
    (ap av bp bv : List Int) :
    (updateBooks s i ap av bp bv).lastFutureAsks =
      if i = Instrument.ETF then s.lastFutureAsks else ap.zip av := by
  unfold updateBooks; split_ifs <;> rfl

@[simp] lemma updateBooks_lastFutureBids (s : AutoTrader) (i : Instrument)
    (ap av bp bv : List Int) :
    (updateBooks s i ap av bp bv).lastFutureBids =
      if i = Instrument.ETF then s.lastFutureBids else bp.zip bv := by
  unfold updateBooks; split_ifs <;> rfl

/-- C3 counterexample: updating the ETF book from the fresh state with
one-level price and volume lists leaves a stored ask ladder of length 1, not
the claimed 5 — the handler performs no sentinel padding. -/
theorem short_ladder_not_padded_to_five :
    (on_order_book_update_message AutoTrader.init Instrument.ETF 1
        [100] [5] [90] [5]).map (fun r => r.1.lastEtfAsks.length) ≠ some 5 := by
  decide

/-- C3 amended: on every normal return of the book-update handler the updated
instrument's two ladders are replaced wholesale by the elementwise zip of the
price and volume lists — so their length is the minimum of the two input
lengths, with no padding to 5 — and the other instrument's ladders are kept
unchanged. -/
theorem book_update_replaces_ladders_wholesale (s : AutoTrader) (i : Instrument)
    (n : Nat) (ap av bp bv : List Int) (r : AutoTrader × List Action)
    (h : on_order_book_update_message s i n ap av bp bv = some r) :
    r.1.lastEtfAsks = (if i = Instrument.ETF then ap.zip av else s.lastEtfAsks) ∧
    r.1.lastEtfBids = (if i = Instrument.ETF then bp.zip bv else s.lastEtfBids) ∧
    r.1.lastFutureAsks = (if i = Instrument.ETF then s.lastFutureAsks else ap.zip av) ∧
    r.1.lastFutureBids = (if i = Instrument.ETF then s.lastFutureBids else bp.zip bv) := by
  obtain ⟨-, -, -, -, -, -, hea, heb, hfa, hfb⟩ :=
    on_order_book_update_some s i n ap av bp bv r h
  refine ⟨?_, ?_, ?_, ?_⟩
  · rw [hea, updateBooks_lastEtfAsks]
  · rw [heb, updateBooks_lastEtfBids]
  · rw [hfa, updateBooks_lastFutureAsks]
  · rw [hfb, updateBooks_lastFutureBids]

/-- The state after the ETF book update of the C3 witness: both ETF ladders
replaced by one-level zips, future ladders untouched. -/
def etfUpdated : AutoTrader :=
  { AutoTrader.init with
    lastEtfBids := [(90, 5)]
    lastEtfAsks := [(100, 5)] }

/-- C3 witness: the wholesale-replacement theorem applied to the concrete ETF
update with one-level lists. -/
theorem book_update_replaces_ladders_wholesale_witness :
    etfUpdated.lastEtfAsks =
      (if Instrument.ETF = Instrument.ETF then List.zip [(100 : Int)] [(5 : Int)]
        else AutoTrader.init.lastEtfAsks) ∧
    etfUpdated.lastEtfBids =
      (if Instrument.ETF = Instrument.ETF then List.zip [(90 : Int)] [(5 : Int)]
        else AutoTrader.init.lastEtfBids) ∧
    etfUpdated.lastFutureAsks =
      (if Instrument.ETF = Instrument.ETF then AutoTrader.init.lastFutureAsks
        else List.zip [(100 : Int)] [(5 : Int)]) ∧
    etfUpdated.lastFutureBids =
      (if Instrument.ETF = Instrument.ETF then AutoTrader.init.lastFutureBids
        else List.zip [(90 : Int)] [(5 : Int)]) :=
  book_update_replaces_ladders_wholesale AutoTrader.init Instrument.ETF 1
    [100] [5] [90] [5] (etfUpdated, []) (by decide)

/-- C4: whenever the scanner run on the freshly updated books reports a BID
opportunity with nonzero price and nonzero volume, the handler emits exactly
two actions — one insert order with side BID, the reported price, the reported
volume and the fill-or-kill lifespan, then one hedge order with side ASK, the
reported future price and the same volume — and records the fresh id and the
price in the bid slots. -/
theorem bid_opportunity_emits_one_order_one_hedge (s : AutoTrader)
    (i : Instrument) (n : Nat) (ap av bp bv : List Int) (p v fp : Int)
    (h : get_max_possible_trade (updateBooks s i ap av bp bv) =
      some (p, v, Side.BID, fp))
    (hp : p ≠ 0) (hv : v ≠ 0) :
    on_order_book_update_message s i n ap av bp bv =
      some ({ updateBooks s i ap av bp bv with
              bid_price := p
              bid_id := s.order_ids
              order_ids := s.order_ids + 2 },
            [Action.send_insert_order s.order_ids Side.BID p v Lifespan.F,
             Action.send_hedge_order (s.order_ids + 1) Side.ASK fp v]) := by
  simp only [on_order_book_update_message, h]
  simp [hp, hv]

/-- The state before the future book update of the C4 witness: the ETF ladders
already hold asks [(100,5)] and bids [(90,5)]. -/
def etfKnown : AutoTrader :=
  { AutoTrader.init with
    lastEtfAsks := [(100, 5)]
    lastEtfBids := [(90, 5)] }

/-- C4 witness: a future book update with bids [(200,3)] makes the scanner
report (100, 3, BID, 200), and the handler emits exactly the insert order for
id 1 and the hedge order for id 2. -/
theorem bid_opportunity_emits_one_order_one_hedge_witness :
    on_order_book_update_message etfKnown Instrument.FUTURE 2 [210] [1] [200] [3] =
      some ({ updateBooks etfKnown Instrument.FUTURE [210] [1] [200] [3] with
              bid_price := 100
              bid_id := etfKnown.order_ids
              order_ids := etfKnown.order_ids + 2 },
            [Action.send_insert_order etfKnown.order_ids Side.BID 100 3 Lifespan.F,
             Action.send_hedge_order (etfKnown.order_ids + 1) Side.ASK 200 3]) :=
  bid_opportunity_emits_one_order_one_hedge etfKnown Instrument.FUTURE 2
    [210] [1] [200] [3] 100 3 200 (by decide) (by decide) (by decide)

end MeanRev2
